import Mathlib

/-!
# Choir-Mezmur-Lyrics bot: shallow embedding of the conversational core

This file embeds the per-user conversational state machine and event
dispatcher of the Telegram lyrics bot (function `handleUpdate` and its
helpers in the Go source) and proves the spec-level properties about it.

The embedding follows the source closely:

* `UserState` mirrors the Go struct `UserState` (fields `Stage`, `Title`,
  `Lyrics`, `Category`, `IsEditing`, `EditField`; Go zero values are the
  empty string and `false`).
* `Sessions` models the global map `userStates : map[int]UserState`
  (absence of a key = `none`).
* External collaborators (Telegram transport, MongoDB collection, imgur)
  are modelled by an oracle `Collab` fixing the outcome of each external
  call, and by the `Effect` trace: each outbound message / persistence
  call / helper-handler invocation that `handleUpdate` performs is
  recorded as one `Effect`.  None of the invoked helper handlers
  (`sendMainMenu`, `helpCommand`, `lyricsCommand`, `addSongCommand`,
  `uploadImageCommand`, `defaultMessage`, `showSongsByCategory`,
  `getRandomSong`, `handleAlphabetSelection`) reads or writes
  `userStates` in the source, so modelling them as opaque trace events
  is faithful to the session semantics.
* `handleUpdate` is the dispatcher itself: Go's `switch` statements
  become sequential equality tests in source order.
-/

/-- Mirrors the Go struct `UserState`.
Field order: Stage, Title, Lyrics, Category, IsEditing, EditField. -/
structure UserState where
  Stage : String
  Title : String
  Lyrics : String
  Category : String
  IsEditing : Bool
  EditField : String
  deriving DecidableEq, Repr

/-- The global `userStates` map: user id to dialog state, `none` = no session. -/
abbrev Sessions := Int → Option UserState

/-- Map write / delete: `sessionUpdate states uid (some s)` models
`userStates[uid] = s`, and `sessionUpdate states uid none` models
`delete(userStates, uid)`. -/
def sessionUpdate (states : Sessions) (uid : Int) (s : Option UserState) : Sessions :=
  fun k => if k = uid then s else states k

/-- `var adminIDs = []int{547900737, 1237680623}` from the source. -/
def adminIDs : List Int := [547900737, 1237680623]

/-- Mirrors `func isAdmin(userID int) bool`: linear membership scan of `adminIDs`. -/
def isAdmin (userID : Int) : Bool :=
  adminIDs.any (fun i => i == userID)

/-- An inbound Telegram message, with the fields `handleUpdate` consumes:
sender id, chat id, text, the transport-level command classification
(`IsCommand()` / `Command()`), and whether a photo is attached
(`Message.Photo != nil`). -/
structure Message where
  fromID : Int
  chatID : Int
  text : String
  isCommand : Bool
  command : String
  hasPhoto : Bool
  deriving DecidableEq, Repr

/-- A plain text message (no command classification, no photo). -/
def textMsg (uid chat : Int) (text : String) : Message :=
  Message.mk uid chat text false "" false

/-- Oracle fixing the outcome of each external call an update can make:
`bot.GetFileDirectURL`, `downloadFile`, `uploadImageToImgur` (returning
the imgur link on success), `collection.FindOne` by title (during
`edit_select_song`), `collection.InsertOne` and `collection.UpdateOne`. -/
structure Collab where
  fileURLOk : Bool
  downloadOk : Bool
  imgurResult : Option String
  findTitle : String → Bool
  insertOk : Bool
  updateOk : Bool

/-- Trace of the side effects `handleUpdate` performs against its
collaborators.  Helper handlers that never touch `userStates` are
recorded as single opaque events. -/
inductive Effect where
  | sendMessage (chatID : Int) (text : String)
  | sendMainMenu (chatID : Int)
  | helpCommand (chatID : Int)
  | lyricsCommand (chatID : Int)
  | addSongCommand (chatID : Int)
  | uploadImageCommand (chatID : Int)
  | defaultMessage (chatID : Int) (text : String)
  | showSongsByCategory (chatID : Int) (category : String)
  | getRandomSong (chatID : Int)
  | findOne (title : String)
  | insertOne (title lyrics image category : String)
  | updateOne (filterTitle field value : String)
  | handleAlphabetSelection (chatID : Int) (text : String)
  deriving DecidableEq, Repr

/-- Recognizer for catalog-insert effects. -/
def isInsert : Effect → Bool
  | Effect.insertOne _ _ _ _ => true
  | _ => false

/-- Recognizer for catalog-update effects. -/
def isUpdate : Effect → Bool
  | Effect.updateOne _ _ _ => true
  | _ => false

/-- The help text sent for the `❓ Help` button (source lines 177-197). -/
def helpText : String :=
  "Welcome to Maranatha Choir Lyrics Bot! 🎵\n\n" ++
  "📱 Main Features:\n" ++
  "🔍 Search Lyrics - Search for song lyrics by title\n" ++
  "📝 View All Songs - Browse all songs alphabetically\n" ++
  "👥 Choir Songs - View songs specific to choir\n" ++
  "🎵 Non-Choir Songs - View other spiritual songs\n" ++
  "🎲 Random Song - Get a random song from our collection\n\n" ++
  "👨‍💼 Admin Features:\n" ++
  "⬆️ Upload Image - Upload images for songs\n" ++
  "➕ Add Song - Add new songs to the database\n" ++
  "✏️ Edit Song - Modify existing songs\n\n" ++
  "🔍 Search Tips:\n" ++
  "• Use /lyrics <song title> to search directly\n" ++
  "• Browse songs alphabetically by clicking letters\n" ++
  "• Use the category buttons for filtered views\n\n" ++
  "📜 Commands:\n" ++
  "/start - Show main menu\n" ++
  "/help - Show this help message\n" ++
  "/lyrics <title> - Get lyrics for a specific song\n" ++
  "/cancel - Cancel current operation\n\n" ++
  "For any issues or song requests, please contact the administrators."

/-- The nine literal labels of the top-level button `switch` in
`handleUpdate` (source lines 142-225), in source order.  Note that
`"Cancel"` is NOT among them: it is only matched inside the
`edit_select_field` stage of the state machine. -/
def buttonLabels : List String :=
  ["🎵 Search Lyrics", "📝 View All Songs", "⬆️ Upload Image", "➕ Add Song",
   "❓ Help", "👥 Choir Songs", "🎵 Non-Choir Songs", "✏️ Edit Song", "🎲 Random Song"]

/-- Character-wise lower-casing of a string (the inputs it is applied
to are plain ASCII, where this agrees with Go's `strings.ToLower`). -/
def toLowerStr (s : String) : String :=
  String.mk (s.data.map Char.toLower)

/-- Splitting a character list on every single space character, as
`strings.Split(s, " ")` does. -/
def splitOnSpace : List Char → List (List Char)
  | [] => [[]]
  | c :: rest =>
      let r := splitOnSpace rest
      if c = ' ' then [] :: r
      else
        match r with
        | [] => [[c]]
        | w :: ws => (c :: w) :: ws

/-- `strings.ToLower(strings.Split(label, " ")[1])` applied to an edit
field label: the lower-cased second word. -/
def editFieldName (label : String) : String :=
  toLowerStr (String.mk ((splitOnSpace label.data).getD 1 []))

/-- The command branch of `handleUpdate` (source lines 108-139):
sequential match on `update.Message.Command()`. -/
def handleCommand (msg : Message) (states : Sessions) : Sessions × List Effect :=
  if msg.command = "start" then
    (states, [Effect.sendMainMenu msg.chatID])
  else if msg.command = "help" then
    (states, [Effect.helpCommand msg.chatID])
  else if msg.command = "lyrics" then
    (states, [Effect.lyricsCommand msg.chatID])
  else if msg.command = "addsong" then
    if isAdmin msg.fromID then (states, [Effect.addSongCommand msg.chatID])
    else (states, [Effect.sendMessage msg.chatID "You are not authorized to add songs."])
  else if msg.command = "uploadimage" then
    if isAdmin msg.fromID then (states, [Effect.uploadImageCommand msg.chatID])
    else (states, [Effect.sendMessage msg.chatID "You are not authorized to upload images."])
  else if msg.command = "cancel" then
    match states msg.fromID with
    | some _ =>
        (sessionUpdate states msg.fromID none,
         [Effect.sendMessage msg.chatID "Song addition cancelled."])
    | none => (states, [])
  else
    (states, [Effect.defaultMessage msg.chatID msg.text])

/-- Terminal step of the Add flow (source lines 311-327): insert the
accumulated entry with the resolved image URL, report the outcome, and
delete the session regardless of the insert outcome. -/
def finishInsert (c : Collab) (msg : Message) (states : Sessions) (state : UserState)
    (imageURL : String) : Sessions × List Effect :=
  (sessionUpdate states msg.fromID none,
   [Effect.insertOne state.Title state.Lyrics imageURL state.Category,
    Effect.sendMessage msg.chatID
      (if c.insertOk then "Song added successfully!" else "Failed to add song.")])

/-- The stage dispatch of `handleUpdate`'s default branch (source lines
229-407): `switch state.Stage`.  Returns `none` exactly when Go control
falls out of the switch and reaches `handleAlphabetSelection` (an
unmatched text in `edit_select_field`, or an unknown stage string). -/
def stageStep (c : Collab) (msg : Message) (states : Sessions) (state : UserState) :
    Option (Sessions × List Effect) :=
  if state.Stage = "awaiting_title" then
    some (sessionUpdate states msg.fromID
            (some (UserState.mk "awaiting_category" msg.text "" "" false "")),
          [Effect.sendMessage msg.chatID "Please select the song category:"])
  else if state.Stage = "awaiting_category" then
    if msg.text ≠ "Choir" ∧ msg.text ≠ "Non-Choir" then
      some (states,
            [Effect.sendMessage msg.chatID "Please select a valid category (Choir/Non-Choir):"])
    else
      some (sessionUpdate states msg.fromID
              (some (UserState.mk "awaiting_lyrics" state.Title "" msg.text false "")),
            [Effect.sendMessage msg.chatID "Great! Now please enter the lyrics:"])
  else if state.Stage = "awaiting_lyrics" then
    some (sessionUpdate states msg.fromID
            (some (UserState.mk "awaiting_image" state.Title msg.text state.Category false "")),
          [Effect.sendMessage msg.chatID "Perfect! Now please send the image URL or upload an image:"])
  else if state.Stage = "awaiting_image" then
    if msg.hasPhoto then
      if c.fileURLOk = false then
        some (states, [Effect.sendMessage msg.chatID "Failed to process image."])
      else if c.downloadOk = false then
        some (states, [Effect.sendMessage msg.chatID "Failed to download image."])
      else
        match c.imgurResult with
        | none => some (states, [Effect.sendMessage msg.chatID "Failed to upload image to Imgur."])
        | some link => some (finishInsert c msg states state link)
    else
      some (finishInsert c msg states state msg.text)
  else if state.Stage = "edit_select_song" then
    if c.findTitle msg.text = false then
      some (states,
            [Effect.findOne msg.text,
             Effect.sendMessage msg.chatID "Song not found. Please try again:"])
    else
      some (sessionUpdate states msg.fromID
              (some (UserState.mk "edit_select_field" msg.text "" "" true "")),
            [Effect.findOne msg.text,
             Effect.sendMessage msg.chatID "What would you like to edit?"])
  else if state.Stage = "edit_select_field" then
    if msg.text = "Edit Title" ∨ msg.text = "Edit Lyrics" ∨
       msg.text = "Edit Category" ∨ msg.text = "Edit Image" then
      some (sessionUpdate states msg.fromID
              (some (UserState.mk "edit_enter_value" state.Title "" "" true
                      (editFieldName msg.text))),
            [Effect.sendMessage msg.chatID ("Please enter the new " ++ editFieldName msg.text ++ ":")])
    else if msg.text = "Cancel" then
      some (sessionUpdate states msg.fromID none,
            [Effect.sendMessage msg.chatID "Edit cancelled.",
             Effect.sendMainMenu msg.chatID])
    else
      none
  else if state.Stage = "edit_enter_value" then
    some (sessionUpdate states msg.fromID none,
          [Effect.updateOne state.Title state.EditField msg.text,
           Effect.sendMessage msg.chatID
             (if c.updateOk then "Song updated successfully!" else "Failed to update the song."),
           Effect.sendMainMenu msg.chatID])
  else
    none

/-- The dispatcher `handleUpdate` (source lines 102-412): command branch
first, then the top-level button `switch` on the literal text in source
order, then (for admins holding a session) the stage dispatch, then the
`handleAlphabetSelection` fallback. -/
def handleUpdate (c : Collab) (msg : Message) (states : Sessions) : Sessions × List Effect :=
  if msg.isCommand then handleCommand msg states
  else if msg.text = "🎵 Search Lyrics" then
    (states, [Effect.sendMessage msg.chatID
      "Please enter a letter (A-Z) to see available songs, or use /lyrics <song title> to search directly."])
  else if msg.text = "📝 View All Songs" then
    (states, [Effect.sendMessage msg.chatID
      "Please select a letter (A-Z) to see songs starting with that letter:"])
  else if msg.text = "⬆️ Upload Image" then
    if isAdmin msg.fromID then
      (states, [Effect.sendMessage msg.chatID "Please send me the image you want to upload."])
    else
      (states, [Effect.sendMessage msg.chatID "You are not authorized to upload images."])
  else if msg.text = "➕ Add Song" then
    if isAdmin msg.fromID then
      (sessionUpdate states msg.fromID (some (UserState.mk "awaiting_title" "" "" "" false "")),
       [Effect.sendMessage msg.chatID "Please enter the song title:\n(or type /cancel to abort)"])
    else
      (states, [Effect.sendMessage msg.chatID "You are not authorized to add songs."])
  else if msg.text = "❓ Help" then
    (states, [Effect.sendMessage msg.chatID helpText])
  else if msg.text = "👥 Choir Songs" then
    (states, [Effect.showSongsByCategory msg.chatID "Choir"])
  else if msg.text = "🎵 Non-Choir Songs" then
    (states, [Effect.showSongsByCategory msg.chatID "Non-Choir"])
  else if msg.text = "✏️ Edit Song" then
    if isAdmin msg.fromID then
      (sessionUpdate states msg.fromID (some (UserState.mk "edit_select_song" "" "" "" true "")),
       [Effect.sendMessage msg.chatID "Please enter the title of the song you want to edit:"])
    else
      (states, [Effect.sendMessage msg.chatID "You are not authorized to edit songs."])
  else if msg.text = "🎲 Random Song" then
    (states, [Effect.getRandomSong msg.chatID])
  else
    if isAdmin msg.fromID then
      match states msg.fromID with
      | some st =>
          (stageStep c msg states st).getD
            (states, [Effect.handleAlphabetSelection msg.chatID msg.text])
      | none => (states, [Effect.handleAlphabetSelection msg.chatID msg.text])
    else
      (states, [Effect.handleAlphabetSelection msg.chatID msg.text])

/-- Process a sequence of inbound messages in order, threading the
session table and concatenating the effect traces. -/
def runMessages (c : Collab) (msgs : List Message) (states : Sessions) :
    Sessions × List Effect :=
  match msgs with
  | [] => (states, [])
  | m :: rest =>
      let r := handleUpdate c m states
      let rr := runMessages c rest r.1
      (rr.1, r.2 ++ rr.2)

/-- The image resolution performed by the `awaiting_image` stage: a
photo attachment goes through the get-URL / download / imgur-upload
pipeline (failing if any step fails), and plain text is taken as the
URL directly. -/
def resolveImage (c : Collab) (msg : Message) : Option String :=
  if msg.hasPhoto then
    if c.fileURLOk = false then none
    else if c.downloadOk = false then none
    else c.imgurResult
  else
    some msg.text

/-- A collaborator oracle where every external call succeeds. -/
def collabOK : Collab :=
  Collab.mk true true (some "https://i.imgur.com/ok.jpg") (fun _ => true) true true

/-- A collaborator oracle where the imgur upload fails and every other
call succeeds. -/
def collabNoImgur : Collab :=
  Collab.mk true true none (fun _ => true) true true

/-- A session table holding exactly one session. -/
def sessionsOf (uid : Int) (st : UserState) : Sessions :=
  fun k => if k = uid then some st else none

/-! ## Dispatch lemmas -/

/-- A command message is handled entirely by the command branch. -/
theorem handleUpdate_command (c : Collab) (msg : Message) (states : Sessions)
    (h : msg.isCommand = true) :
    handleUpdate c msg states = handleCommand msg states := by
  simp [handleUpdate, h]

/-- A non-command message whose text matches no top-level button label
reaches the default branch: stage dispatch for admins holding a
session, alphabet-selection fallback otherwise. -/
theorem handleUpdate_notButton (c : Collab) (msg : Message) (states : Sessions)
    (hcmd : msg.isCommand = false) (hbtn : msg.text ∉ buttonLabels) :
    handleUpdate c msg states =
      if isAdmin msg.fromID then
        match states msg.fromID with
        | some st =>
            (stageStep c msg states st).getD
              (states, [Effect.handleAlphabetSelection msg.chatID msg.text])
        | none => (states, [Effect.handleAlphabetSelection msg.chatID msg.text])
      else (states, [Effect.handleAlphabetSelection msg.chatID msg.text]) := by
  simp only [buttonLabels, List.mem_cons, List.not_mem_nil, or_false] at hbtn
  push_neg at hbtn
  obtain ⟨h1, h2, h3, h4, h5, h6, h7, h8, h9⟩ := hbtn
  simp [handleUpdate, hcmd, h1, h2, h3, h4, h5, h6, h7, h8, h9]

/-- For an admin holding a session, a plain text message is handled by
the stage dispatch (falling back to alphabet selection when the stage
dispatch declines). -/
theorem handleUpdate_stageStep (c : Collab) (msg : Message) (states : Sessions) (st : UserState)
    (hcmd : msg.isCommand = false) (hbtn : msg.text ∉ buttonLabels)
    (hadm : isAdmin msg.fromID = true) (hsess : states msg.fromID = some st) :
    handleUpdate c msg states =
      (stageStep c msg states st).getD
        (states, [Effect.handleAlphabetSelection msg.chatID msg.text]) := by
  rw [handleUpdate_notButton c msg states hcmd hbtn]
  simp [hadm, hsess]

/-- Without a session, plain text goes to the alphabet-selection
fallback, admin or not. -/
theorem handleUpdate_fallback_noSession (c : Collab) (msg : Message) (states : Sessions)
    (hcmd : msg.isCommand = false) (hbtn : msg.text ∉ buttonLabels)
    (hsess : states msg.fromID = none) :
    handleUpdate c msg states =
      (states, [Effect.handleAlphabetSelection msg.chatID msg.text]) := by
  rw [handleUpdate_notButton c msg states hcmd hbtn]
  cases h : isAdmin msg.fromID <;> simp [h, hsess]

/-- A non-admin sender's plain text always goes to the fallback, even
if a session exists for that sender. -/
theorem handleUpdate_fallback_notAdmin (c : Collab) (msg : Message) (states : Sessions)
    (hcmd : msg.isCommand = false) (hbtn : msg.text ∉ buttonLabels)
    (hadm : isAdmin msg.fromID = false) :
    handleUpdate c msg states =
      (states, [Effect.handleAlphabetSelection msg.chatID msg.text]) := by
  rw [handleUpdate_notButton c msg states hcmd hbtn]
  simp [hadm]

/-- The `➕ Add Song` button: admins get a fresh `awaiting_title`
session, everyone else a denial. -/
theorem handleUpdate_addSong_button (c : Collab) (msg : Message) (states : Sessions)
    (hcmd : msg.isCommand = false) (htext : msg.text = "➕ Add Song") :
    handleUpdate c msg states =
      if isAdmin msg.fromID then
        (sessionUpdate states msg.fromID (some (UserState.mk "awaiting_title" "" "" "" false "")),
         [Effect.sendMessage msg.chatID "Please enter the song title:\n(or type /cancel to abort)"])
      else
        (states, [Effect.sendMessage msg.chatID "You are not authorized to add songs."]) := by
  simp [handleUpdate, hcmd, htext]

/-- The `/cancel` command with an existing session: the session is
deleted and a confirmation is sent. -/
theorem handleCommand_cancel (msg : Message) (states : Sessions) (st : UserState)
    (hname : msg.command = "cancel") (hsess : states msg.fromID = some st) :
    handleCommand msg states =
      (sessionUpdate states msg.fromID none,
       [Effect.sendMessage msg.chatID "Song addition cancelled."]) := by
  simp [handleCommand, hname, hsess]

/-! ## Stage-step lemmas -/

/-- `awaiting_title`: any text becomes the title, stage advances. -/
theorem step_awaiting_title (c : Collab) (msg : Message) (states : Sessions) (st : UserState)
    (hcmd : msg.isCommand = false) (hbtn : msg.text ∉ buttonLabels)
    (hadm : isAdmin msg.fromID = true) (hsess : states msg.fromID = some st)
    (hstage : st.Stage = "awaiting_title") :
    handleUpdate c msg states =
      (sessionUpdate states msg.fromID
         (some (UserState.mk "awaiting_category" msg.text "" "" false "")),
       [Effect.sendMessage msg.chatID "Please select the song category:"]) := by
  rw [handleUpdate_stageStep c msg states st hcmd hbtn hadm hsess]
  simp [stageStep, hstage]

/-- `awaiting_category` with a valid category: the category is stored,
stage advances. -/
theorem step_awaiting_category_valid (c : Collab) (msg : Message) (states : Sessions)
    (st : UserState)
    (hcmd : msg.isCommand = false) (hbtn : msg.text ∉ buttonLabels)
    (hadm : isAdmin msg.fromID = true) (hsess : states msg.fromID = some st)
    (hstage : st.Stage = "awaiting_category")
    (hvalid : msg.text = "Choir" ∨ msg.text = "Non-Choir") :
    handleUpdate c msg states =
      (sessionUpdate states msg.fromID
         (some (UserState.mk "awaiting_lyrics" st.Title "" msg.text false "")),
       [Effect.sendMessage msg.chatID "Great! Now please enter the lyrics:"]) := by
  rw [handleUpdate_stageStep c msg states st hcmd hbtn hadm hsess]
  have hcond : ¬(msg.text ≠ "Choir" ∧ msg.text ≠ "Non-Choir") := by
    rcases hvalid with h | h <;> simp [h]
  simp [stageStep, hstage, hcond]

/-- `awaiting_lyrics`: any text becomes the lyrics, stage advances. -/
theorem step_awaiting_lyrics (c : Collab) (msg : Message) (states : Sessions) (st : UserState)
    (hcmd : msg.isCommand = false) (hbtn : msg.text ∉ buttonLabels)
    (hadm : isAdmin msg.fromID = true) (hsess : states msg.fromID = some st)
    (hstage : st.Stage = "awaiting_lyrics") :
    handleUpdate c msg states =
      (sessionUpdate states msg.fromID
         (some (UserState.mk "awaiting_image" st.Title msg.text st.Category false "")),
       [Effect.sendMessage msg.chatID "Perfect! Now please send the image URL or upload an image:"]) := by
  rw [handleUpdate_stageStep c msg states st hcmd hbtn hadm hsess]
  simp [stageStep, hstage]

/-- `awaiting_image` with a resolvable image (photo whose pipeline
succeeds, or free text taken as the URL): one insert with the
accumulated fields, outcome report, session deleted. -/
theorem step_awaiting_image_resolved (c : Collab) (msg : Message) (states : Sessions)
    (st : UserState) (url : String)
    (hcmd : msg.isCommand = false) (hbtn : msg.text ∉ buttonLabels)
    (hadm : isAdmin msg.fromID = true) (hsess : states msg.fromID = some st)
    (hstage : st.Stage = "awaiting_image")
    (hres : resolveImage c msg = some url) :
    handleUpdate c msg states =
      (sessionUpdate states msg.fromID none,
       [Effect.insertOne st.Title st.Lyrics url st.Category,
        Effect.sendMessage msg.chatID
          (if c.insertOk then "Song added successfully!" else "Failed to add song.")]) := by
  rw [handleUpdate_stageStep c msg states st hcmd hbtn hadm hsess]
  simp only [resolveImage] at hres
  by_cases hp : msg.hasPhoto = true
  · simp only [hp, if_true] at hres
    by_cases h1 : c.fileURLOk = false
    · simp [h1] at hres
    · by_cases h2 : c.downloadOk = false
      · simp [h1, h2] at hres
      · simp [h1, h2] at hres
        simp [stageStep, hstage, hp, h1, h2, hres, finishInsert]
  · have hp2 : msg.hasPhoto = false := by
      revert hp; cases msg.hasPhoto <;> simp
    rw [hp2] at hres
    simp only [Bool.false_eq_true, if_false, Option.some.injEq] at hres
    simp [stageStep, hstage, hp2, finishInsert, hres]

/-- `awaiting_image` with a photo whose media pipeline fails: one of
the three failure messages is sent and nothing else happens. -/
theorem step_awaiting_image_failed (c : Collab) (msg : Message) (states : Sessions)
    (st : UserState)
    (hcmd : msg.isCommand = false) (hbtn : msg.text ∉ buttonLabels)
    (hadm : isAdmin msg.fromID = true) (hsess : states msg.fromID = some st)
    (hstage : st.Stage = "awaiting_image")
    (hphoto : msg.hasPhoto = true) (hres : resolveImage c msg = none) :
    handleUpdate c msg states = (states, [Effect.sendMessage msg.chatID "Failed to process image."]) ∨
    handleUpdate c msg states = (states, [Effect.sendMessage msg.chatID "Failed to download image."]) ∨
    handleUpdate c msg states = (states, [Effect.sendMessage msg.chatID "Failed to upload image to Imgur."]) := by
  rw [handleUpdate_stageStep c msg states st hcmd hbtn hadm hsess]
  simp only [resolveImage, hphoto, if_true] at hres
  by_cases h1 : c.fileURLOk = false
  · left; simp [stageStep, hstage, hphoto, h1]
  · by_cases h2 : c.downloadOk = false
    · right; left; simp [stageStep, hstage, hphoto, h1, h2]
    · right; right
      simp [h1, h2] at hres
      simp [stageStep, hstage, hphoto, h1, h2, hres]

/-- `edit_select_song` with an existing title: title is captured, stage
advances to field selection. -/
theorem step_edit_select_song_found (c : Collab) (msg : Message) (states : Sessions)
    (st : UserState)
    (hcmd : msg.isCommand = false) (hbtn : msg.text ∉ buttonLabels)
    (hadm : isAdmin msg.fromID = true) (hsess : states msg.fromID = some st)
    (hstage : st.Stage = "edit_select_song")
    (hfound : c.findTitle msg.text = true) :
    handleUpdate c msg states =
      (sessionUpdate states msg.fromID
         (some (UserState.mk "edit_select_field" msg.text "" "" true "")),
       [Effect.findOne msg.text,
        Effect.sendMessage msg.chatID "What would you like to edit?"]) := by
  rw [handleUpdate_stageStep c msg states st hcmd hbtn hadm hsess]
  simp [stageStep, hstage, hfound]

/-- `edit_select_field` with one of the four field labels: the
normalized field name is stored and the stage advances, keeping the
previously captured title. -/
theorem step_edit_select_field_label (c : Collab) (msg : Message) (states : Sessions)
    (st : UserState)
    (hcmd : msg.isCommand = false)
    (hadm : isAdmin msg.fromID = true) (hsess : states msg.fromID = some st)
    (hstage : st.Stage = "edit_select_field")
    (hf : msg.text = "Edit Title" ∨ msg.text = "Edit Lyrics" ∨
          msg.text = "Edit Category" ∨ msg.text = "Edit Image") :
    handleUpdate c msg states =
      (sessionUpdate states msg.fromID
         (some (UserState.mk "edit_enter_value" st.Title "" "" true (editFieldName msg.text))),
       [Effect.sendMessage msg.chatID ("Please enter the new " ++ editFieldName msg.text ++ ":")]) := by
  have hbtn : msg.text ∉ buttonLabels := by
    rcases hf with h | h | h | h <;> rw [h] <;> decide
  rw [handleUpdate_stageStep c msg states st hcmd hbtn hadm hsess]
  rcases hf with h | h | h | h <;> simp [stageStep, hstage, h]

/-- `edit_enter_value`: any text issues the single-field update keyed
by the stored title, reports the outcome, deletes the session either
way, and re-sends the main menu. -/
theorem step_edit_enter_value (c : Collab) (msg : Message) (states : Sessions) (st : UserState)
    (hcmd : msg.isCommand = false) (hbtn : msg.text ∉ buttonLabels)
    (hadm : isAdmin msg.fromID = true) (hsess : states msg.fromID = some st)
    (hstage : st.Stage = "edit_enter_value") :
    handleUpdate c msg states =
      (sessionUpdate states msg.fromID none,
       [Effect.updateOne st.Title st.EditField msg.text,
        Effect.sendMessage msg.chatID
          (if c.updateOk then "Song updated successfully!" else "Failed to update the song."),
        Effect.sendMainMenu msg.chatID]) := by
  rw [handleUpdate_stageStep c msg states st hcmd hbtn hadm hsess]
  simp [stageStep, hstage]

/-! ## Claims -/

/-- C7: when the `awaiting_category` stage of the Add flow receives text
that is neither "Choir" nor "Non-Choir", the user is reprompted and the
session table is returned unchanged: the sender remains at
`awaiting_category` and no session field (title, category, lyrics) is
overwritten. -/
theorem c7_invalid_category_reprompts_in_place (c : Collab) (msg : Message) (states : Sessions)
    (st : UserState)
    (hcmd : msg.isCommand = false) (hbtn : msg.text ∉ buttonLabels)
    (hadm : isAdmin msg.fromID = true) (hsess : states msg.fromID = some st)
    (hstage : st.Stage = "awaiting_category")
    (h1 : msg.text ≠ "Choir") (h2 : msg.text ≠ "Non-Choir") :
    handleUpdate c msg states =
      (states,
       [Effect.sendMessage msg.chatID "Please select a valid category (Choir/Non-Choir):"]) := by
  rw [handleUpdate_stageStep c msg states st hcmd hbtn hadm hsess]
  simp [stageStep, hstage, h1, h2]

/-- Witness for C7 at a concrete input. -/
theorem c7_invalid_category_reprompts_in_place_witness :
    handleUpdate collabOK (textMsg 547900737 7 "Rock")
        (sessionsOf 547900737 (UserState.mk "awaiting_category" "Night Song" "" "" false "")) =
      (sessionsOf 547900737 (UserState.mk "awaiting_category" "Night Song" "" "" false ""),
       [Effect.sendMessage 7 "Please select a valid category (Choir/Non-Choir):"]) :=
  c7_invalid_category_reprompts_in_place collabOK (textMsg 547900737 7 "Rock")
    (sessionsOf 547900737 (UserState.mk "awaiting_category" "Night Song" "" "" false ""))
    (UserState.mk "awaiting_category" "Night Song" "" "" false "")
    rfl (by decide) (by decide) (by decide) rfl (by decide) (by decide)

/-- C8: at `edit_enter_value`, any text issues the update (keyed by the
stored title, setting the stored field to the new text) and deletes the
session regardless of the update outcome: the oracle `c` is arbitrary,
and only the reported message depends on `c.updateOk`. -/
theorem c8_edit_value_updates_then_deletes_session (c : Collab) (msg : Message)
    (states : Sessions) (st : UserState)
    (hcmd : msg.isCommand = false) (hbtn : msg.text ∉ buttonLabels)
    (hadm : isAdmin msg.fromID = true) (hsess : states msg.fromID = some st)
    (hstage : st.Stage = "edit_enter_value") :
    (handleUpdate c msg states).1 msg.fromID = none ∧
    handleUpdate c msg states =
      (sessionUpdate states msg.fromID none,
       [Effect.updateOne st.Title st.EditField msg.text,
        Effect.sendMessage msg.chatID
          (if c.updateOk then "Song updated successfully!" else "Failed to update the song."),
        Effect.sendMainMenu msg.chatID]) := by
  have h := step_edit_enter_value c msg states st hcmd hbtn hadm hsess hstage
  rw [h]
  exact ⟨by simp [sessionUpdate], rfl⟩

/-- Witness for C8 at a concrete input, with a failing update. -/
theorem c8_edit_value_updates_then_deletes_session_witness :
    (handleUpdate (Collab.mk true true none (fun _ => true) true false)
        (textMsg 547900737 4 "New lyrics text")
        (sessionsOf 547900737 (UserState.mk "edit_enter_value" "Night Song" "" "" true "lyrics"))).1
        547900737 = none ∧
    handleUpdate (Collab.mk true true none (fun _ => true) true false)
        (textMsg 547900737 4 "New lyrics text")
        (sessionsOf 547900737 (UserState.mk "edit_enter_value" "Night Song" "" "" true "lyrics")) =
      (sessionUpdate
         (sessionsOf 547900737 (UserState.mk "edit_enter_value" "Night Song" "" "" true "lyrics"))
         547900737 none,
       [Effect.updateOne "Night Song" "lyrics" "New lyrics text",
        Effect.sendMessage 4 "Failed to update the song.",
        Effect.sendMainMenu 4]) :=
  c8_edit_value_updates_then_deletes_session (Collab.mk true true none (fun _ => true) true false)
    (textMsg 547900737 4 "New lyrics text")
    (sessionsOf 547900737 (UserState.mk "edit_enter_value" "Night Song" "" "" true "lyrics"))
    (UserState.mk "edit_enter_value" "Night Song" "" "" true "lyrics")
    rfl (by decide) (by decide) (by decide) rfl

/-- C9: a non-privileged user sending the `➕ Add Song` button label gets
a denial message and the session table is returned unchanged wholesale:
no session is created, no state mutation of any kind. -/
theorem c9_addSong_denied_no_mutation (c : Collab) (uid chat : Int) (states : Sessions)
    (hadm : isAdmin uid = false) :
    handleUpdate c (textMsg uid chat "➕ Add Song") states =
      (states, [Effect.sendMessage chat "You are not authorized to add songs."]) := by
  rw [handleUpdate_addSong_button c (textMsg uid chat "➕ Add Song") states rfl rfl]
  simp [textMsg, hadm]

/-- Witness for C9 at a concrete input. -/
theorem c9_addSong_denied_no_mutation_witness :
    handleUpdate collabOK (textMsg 99 2 "➕ Add Song") (fun _ => none) =
      ((fun _ => none : Sessions), [Effect.sendMessage 2 "You are not authorized to add songs."]) :=
  c9_addSong_denied_no_mutation collabOK 99 2 (fun _ => none) (by decide)

/-- C5: privilege is re-derived from `isAdmin` (a pure function of the
sender id, never read from the session): a sender who holds a session
but is outside the privileged set has their plain text routed to the
fallback handler with the session table untouched — the state machine
never processes the event, even mid-flow. -/
theorem c5_unprivileged_session_never_dispatched (c : Collab) (msg : Message)
    (states : Sessions) (st : UserState)
    (hadm : isAdmin msg.fromID = false)
    (_hsess : states msg.fromID = some st)
    (hcmd : msg.isCommand = false) (hbtn : msg.text ∉ buttonLabels) :
    handleUpdate c msg states =
      (states, [Effect.handleAlphabetSelection msg.chatID msg.text]) :=
  handleUpdate_fallback_notAdmin c msg states hcmd hbtn hadm

/-- Witness for C5 at a concrete input: a non-admin holding a mid-flow
editing session. -/
theorem c5_unprivileged_session_never_dispatched_witness :
    handleUpdate collabOK (textMsg 99 3 "Some Song Title")
        (sessionsOf 99 (UserState.mk "edit_select_song" "" "" "" true "")) =
      (sessionsOf 99 (UserState.mk "edit_select_song" "" "" "" true ""),
       [Effect.handleAlphabetSelection 3 "Some Song Title"]) :=
  c5_unprivileged_session_never_dispatched collabOK (textMsg 99 3 "Some Song Title")
    (sessionsOf 99 (UserState.mk "edit_select_song" "" "" "" true ""))
    (UserState.mk "edit_select_song" "" "" "" true "")
    (by decide) (by decide) rfl (by decide)

/-- C3: at `awaiting_image`, when the media pipeline fails at any step
(file-URL lookup, download, or imgur upload), a failure message is the
sole effect, the session table is unchanged (the sender remains at
`awaiting_image` with title, category and lyrics intact), and no insert
is issued. -/
theorem c3_media_failure_preserves_session (c : Collab) (msg : Message) (states : Sessions)
    (st : UserState)
    (hcmd : msg.isCommand = false) (hbtn : msg.text ∉ buttonLabels)
    (hadm : isAdmin msg.fromID = true) (hsess : states msg.fromID = some st)
    (hstage : st.Stage = "awaiting_image")
    (hphoto : msg.hasPhoto = true) (hres : resolveImage c msg = none) :
    (handleUpdate c msg states).1 = states ∧
    (handleUpdate c msg states).1 msg.fromID = some st ∧
    ((handleUpdate c msg states).2 = [Effect.sendMessage msg.chatID "Failed to process image."] ∨
     (handleUpdate c msg states).2 = [Effect.sendMessage msg.chatID "Failed to download image."] ∨
     (handleUpdate c msg states).2 = [Effect.sendMessage msg.chatID "Failed to upload image to Imgur."]) ∧
    (handleUpdate c msg states).2.filter isInsert = [] := by
  rcases step_awaiting_image_failed c msg states st hcmd hbtn hadm hsess hstage hphoto hres
      with h | h | h <;> rw [h] <;>
    exact ⟨rfl, hsess, by simp, by rfl⟩

/-- Witness for C3 at a concrete input: the imgur upload fails. -/
theorem c3_media_failure_preserves_session_witness :
    (handleUpdate collabNoImgur (Message.mk 547900737 3 "" false "" true)
        (sessionsOf 547900737 (UserState.mk "awaiting_image" "Night Song" "La la la" "Choir" false ""))).1 =
      sessionsOf 547900737 (UserState.mk "awaiting_image" "Night Song" "La la la" "Choir" false "") ∧
    (handleUpdate collabNoImgur (Message.mk 547900737 3 "" false "" true)
        (sessionsOf 547900737 (UserState.mk "awaiting_image" "Night Song" "La la la" "Choir" false ""))).1
        547900737 =
      some (UserState.mk "awaiting_image" "Night Song" "La la la" "Choir" false "") ∧
    ((handleUpdate collabNoImgur (Message.mk 547900737 3 "" false "" true)
        (sessionsOf 547900737 (UserState.mk "awaiting_image" "Night Song" "La la la" "Choir" false ""))).2 =
        [Effect.sendMessage 3 "Failed to process image."] ∨
     (handleUpdate collabNoImgur (Message.mk 547900737 3 "" false "" true)
        (sessionsOf 547900737 (UserState.mk "awaiting_image" "Night Song" "La la la" "Choir" false ""))).2 =
        [Effect.sendMessage 3 "Failed to download image."] ∨
     (handleUpdate collabNoImgur (Message.mk 547900737 3 "" false "" true)
        (sessionsOf 547900737 (UserState.mk "awaiting_image" "Night Song" "La la la" "Choir" false ""))).2 =
        [Effect.sendMessage 3 "Failed to upload image to Imgur."]) ∧
    (handleUpdate collabNoImgur (Message.mk 547900737 3 "" false "" true)
        (sessionsOf 547900737 (UserState.mk "awaiting_image" "Night Song" "La la la" "Choir" false ""))).2.filter
        isInsert = [] :=
  c3_media_failure_preserves_session collabNoImgur (Message.mk 547900737 3 "" false "" true)
    (sessionsOf 547900737 (UserState.mk "awaiting_image" "Night Song" "La la la" "Choir" false ""))
    (UserState.mk "awaiting_image" "Night Song" "La la la" "Choir" false "")
    rfl (by decide) (by decide) (by decide) rfl rfl (by decide)

/-- C4: the `/cancel` command from a user holding a session (any
non-Idle stage) deletes that session, and any subsequent plain text
from the same user is routed to the fallback browsing handler with the
table unchanged — never treated as a continuation of the aborted flow. -/
theorem c4_cancel_aborts_flow (c : Collab) (msg msg2 : Message) (states : Sessions)
    (st : UserState)
    (hc1 : msg.isCommand = true) (hc2 : msg.command = "cancel")
    (hsess : states msg.fromID = some st)
    (hfrom : msg2.fromID = msg.fromID)
    (h2cmd : msg2.isCommand = false) (h2btn : msg2.text ∉ buttonLabels) :
    (handleUpdate c msg states).1 msg.fromID = none ∧
    handleUpdate c msg2 (handleUpdate c msg states).1 =
      ((handleUpdate c msg states).1,
       [Effect.handleAlphabetSelection msg2.chatID msg2.text]) := by
  rw [handleUpdate_command c msg states hc1, handleCommand_cancel msg states st hc2 hsess]
  refine ⟨by simp [sessionUpdate], ?_⟩
  apply handleUpdate_fallback_noSession c msg2 _ h2cmd h2btn
  simp [sessionUpdate, hfrom]

/-- Witness for C4 at a concrete input: admin cancels mid-Add-flow,
then sends plain text. -/
theorem c4_cancel_aborts_flow_witness :
    (handleUpdate collabOK (Message.mk 547900737 9 "/cancel" true "cancel" false)
        (sessionsOf 547900737 (UserState.mk "awaiting_lyrics" "Night Song" "" "Choir" false ""))).1
        547900737 = none ∧
    handleUpdate collabOK (textMsg 547900737 9 "B")
        (handleUpdate collabOK (Message.mk 547900737 9 "/cancel" true "cancel" false)
          (sessionsOf 547900737 (UserState.mk "awaiting_lyrics" "Night Song" "" "Choir" false ""))).1 =
      ((handleUpdate collabOK (Message.mk 547900737 9 "/cancel" true "cancel" false)
          (sessionsOf 547900737 (UserState.mk "awaiting_lyrics" "Night Song" "" "Choir" false ""))).1,
       [Effect.handleAlphabetSelection 9 "B"]) :=
  c4_cancel_aborts_flow collabOK (Message.mk 547900737 9 "/cancel" true "cancel" false)
    (textMsg 547900737 9 "B")
    (sessionsOf 547900737 (UserState.mk "awaiting_lyrics" "Night Song" "" "Choir" false ""))
    (UserState.mk "awaiting_lyrics" "Night Song" "" "Choir" false "")
    rfl rfl (by decide) rfl rfl (by decide)

/-- C10 (counterexample): with a session at `edit_select_field`, the
text `"➕ Add Song"` matches none of the four field labels and is not
`"Cancel"`, yet the session is NOT left unchanged (it is overwritten by
the button branch with a fresh `awaiting_title` session) and the
message does NOT reach the alphabet-selection fallback. -/
theorem c10_counterexample :
    (handleUpdate collabOK (textMsg 547900737 5 "➕ Add Song")
        (sessionsOf 547900737 (UserState.mk "edit_select_field" "Night Song" "" "" true ""))).1
        547900737 = some (UserState.mk "awaiting_title" "" "" "" false "") ∧
    (handleUpdate collabOK (textMsg 547900737 5 "➕ Add Song")
        (sessionsOf 547900737 (UserState.mk "edit_select_field" "Night Song" "" "" true ""))).2 =
      [Effect.sendMessage 5 "Please enter the song title:\n(or type /cancel to abort)"] := by
  decide

/-- C10 (amended): with a session at `edit_select_field`, a
non-command text that matches none of the nine top-level button labels,
none of the four field labels, and is not `"Cancel"`, leaves the
session table unchanged and falls through to the alphabet-selection
browsing handler. -/
theorem c10_edit_select_field_fallthrough (c : Collab) (msg : Message) (states : Sessions)
    (st : UserState)
    (hcmd : msg.isCommand = false) (hbtn : msg.text ∉ buttonLabels)
    (hadm : isAdmin msg.fromID = true) (hsess : states msg.fromID = some st)
    (hstage : st.Stage = "edit_select_field")
    (h1 : msg.text ≠ "Edit Title") (h2 : msg.text ≠ "Edit Lyrics")
    (h3 : msg.text ≠ "Edit Category") (h4 : msg.text ≠ "Edit Image")
    (h5 : msg.text ≠ "Cancel") :
    handleUpdate c msg states =
      (states, [Effect.handleAlphabetSelection msg.chatID msg.text]) := by
  rw [handleUpdate_stageStep c msg states st hcmd hbtn hadm hsess]
  simp [stageStep, hstage, h1, h2, h3, h4, h5]

/-- Witness for the amended C10 at a concrete input. -/
theorem c10_edit_select_field_fallthrough_witness :
    handleUpdate collabOK (textMsg 547900737 5 "B")
        (sessionsOf 547900737 (UserState.mk "edit_select_field" "Night Song" "" "" true "")) =
      (sessionsOf 547900737 (UserState.mk "edit_select_field" "Night Song" "" "" true ""),
       [Effect.handleAlphabetSelection 5 "B"]) :=
  c10_edit_select_field_fallthrough collabOK (textMsg 547900737 5 "B")
    (sessionsOf 547900737 (UserState.mk "edit_select_field" "Night Song" "" "" true ""))
    (UserState.mk "edit_select_field" "Night Song" "" "" true "")
    rfl (by decide) (by decide) (by decide) rfl
    (by decide) (by decide) (by decide) (by decide) (by decide)

/-- C2 (counterexample): the literal word "Cancel" typed as a song
title mid-flow is NOT swallowed by the button branch: with a session at
`awaiting_title`, it reaches the state-machine stage dispatch and is
stored as the title ("Cancel" is not one of the nine top-level button
labels; it is only matched inside the `edit_select_field` stage). -/
theorem c2_counterexample :
    (handleUpdate collabOK (textMsg 547900737 5 "Cancel")
        (sessionsOf 547900737 (UserState.mk "awaiting_title" "" "" "" false ""))).1
        547900737 = some (UserState.mk "awaiting_category" "Cancel" "" "" false "") := by
  decide

/-- C2 (amended): the dispatcher evaluates the command check first,
then the exact match against the nine top-level button labels, then the
session-stage dispatch, then the fallback: a command is handled wholly
by the command branch, and a non-command text matching one of the nine
top-level button labels produces effects independent of the sender's
stored session (the stage dispatch never sees it, even mid-flow).  The
label `"Cancel"` is NOT among those nine, so typing it as a song title
mid-flow reaches the state machine instead. -/
theorem c2_dispatch_order (c : Collab) (msg : Message) (states : Sessions)
    (s0 : Option UserState) :
    (msg.isCommand = true → handleUpdate c msg states = handleCommand msg states) ∧
    (msg.isCommand = false → msg.text ∈ buttonLabels →
      (handleUpdate c msg states).2 =
        (handleUpdate c msg (sessionUpdate states msg.fromID s0)).2) ∧
    "Cancel" ∉ buttonLabels := by
  refine ⟨fun h => handleUpdate_command c msg states h, fun hcmd hmem => ?_, by decide⟩
  simp only [buttonLabels, List.mem_cons, List.not_mem_nil, or_false] at hmem
  rcases hmem with h | h | h | h | h | h | h | h | h <;>
    cases hA : isAdmin msg.fromID <;> simp [handleUpdate, hcmd, h, hA]

/-- C6: in the Edit flow, after selecting the song `t0` (captured at
`edit_select_song` time), choosing a field label and entering a new
value issues exactly one update; the update carries a single
field/value pair (MongoDB `$set` on one key, so only the selected field
is modified) and its lookup filter is the pre-edit title `t0` — also
when the field being edited is the title itself
(`f = "Edit Title"`). -/
theorem c6_edit_update_keyed_by_preedit_title (c : Collab) (uid chat : Int) (states : Sessions)
    (st0 : UserState) (t0 f v : String)
    (hadm : isAdmin uid = true)
    (hsess : states uid = some st0) (hstage : st0.Stage = "edit_select_song")
    (hfound : c.findTitle t0 = true) (ht0 : t0 ∉ buttonLabels)
    (hf : f = "Edit Title" ∨ f = "Edit Lyrics" ∨ f = "Edit Category" ∨ f = "Edit Image")
    (hv : v ∉ buttonLabels) :
    (runMessages c [textMsg uid chat t0, textMsg uid chat f, textMsg uid chat v] states).1
      uid = none ∧
    (runMessages c [textMsg uid chat t0, textMsg uid chat f, textMsg uid chat v]
        states).2.filter isUpdate = [Effect.updateOne t0 (editFieldName f) v] := by
  have e1 : handleUpdate c (textMsg uid chat t0) states =
      (sessionUpdate states uid (some (UserState.mk "edit_select_field" t0 "" "" true "")),
       [Effect.findOne t0, Effect.sendMessage chat "What would you like to edit?"]) :=
    step_edit_select_song_found c (textMsg uid chat t0) states st0 rfl ht0 hadm hsess hstage
      hfound
  have e2 : handleUpdate c (textMsg uid chat f)
        (sessionUpdate states uid (some (UserState.mk "edit_select_field" t0 "" "" true ""))) =
      (sessionUpdate
         (sessionUpdate states uid (some (UserState.mk "edit_select_field" t0 "" "" true "")))
         uid (some (UserState.mk "edit_enter_value" t0 "" "" true (editFieldName f))),
       [Effect.sendMessage chat ("Please enter the new " ++ editFieldName f ++ ":")]) :=
    step_edit_select_field_label c (textMsg uid chat f)
      (sessionUpdate states uid (some (UserState.mk "edit_select_field" t0 "" "" true "")))
      (UserState.mk "edit_select_field" t0 "" "" true "")
      rfl hadm (by simp [sessionUpdate, textMsg]) rfl hf
  have e3 : handleUpdate c (textMsg uid chat v)
        (sessionUpdate
          (sessionUpdate states uid (some (UserState.mk "edit_select_field" t0 "" "" true "")))
          uid (some (UserState.mk "edit_enter_value" t0 "" "" true (editFieldName f)))) =
      (sessionUpdate
         (sessionUpdate
           (sessionUpdate states uid (some (UserState.mk "edit_select_field" t0 "" "" true "")))
           uid (some (UserState.mk "edit_enter_value" t0 "" "" true (editFieldName f))))
         uid none,
       [Effect.updateOne t0 (editFieldName f) v,
        Effect.sendMessage chat
          (if c.updateOk then "Song updated successfully!" else "Failed to update the song."),
        Effect.sendMainMenu chat]) :=
    step_edit_enter_value c (textMsg uid chat v)
      (sessionUpdate
        (sessionUpdate states uid (some (UserState.mk "edit_select_field" t0 "" "" true "")))
        uid (some (UserState.mk "edit_enter_value" t0 "" "" true (editFieldName f))))
      (UserState.mk "edit_enter_value" t0 "" "" true (editFieldName f))
      rfl hv hadm (by simp [sessionUpdate, textMsg]) rfl
  simp only [runMessages]
  rw [e1]
  dsimp only
  rw [e2]
  dsimp only
  rw [e3]
  dsimp only
  constructor
  · simp [sessionUpdate]
  · rfl

/-- Witness for C6 at a concrete input: editing the title itself still
filters by the pre-edit title. -/
theorem c6_edit_update_keyed_by_preedit_title_witness :
    (runMessages collabOK
        [textMsg 547900737 6 "Night Song", textMsg 547900737 6 "Edit Title",
         textMsg 547900737 6 "Day Song"]
        (sessionsOf 547900737 (UserState.mk "edit_select_song" "" "" "" true ""))).1
        547900737 = none ∧
    (runMessages collabOK
        [textMsg 547900737 6 "Night Song", textMsg 547900737 6 "Edit Title",
         textMsg 547900737 6 "Day Song"]
        (sessionsOf 547900737 (UserState.mk "edit_select_song" "" "" "" true ""))).2.filter
        isUpdate =
      [Effect.updateOne "Night Song" (editFieldName "Edit Title") "Day Song"] :=
  c6_edit_update_keyed_by_preedit_title collabOK 547900737 6
    (sessionsOf 547900737 (UserState.mk "edit_select_song" "" "" "" true ""))
    (UserState.mk "edit_select_song" "" "" "" true "")
    "Night Song" "Edit Title" "Day Song"
    (by decide) (by decide) rfl rfl (by decide) (Or.inl rfl) (by decide)

/-- C1: a complete Add flow by an admin — the `➕ Add Song` button, a
title, a valid category, lyrics, and a message whose image resolves to
a URL (a photo whose upload pipeline succeeds, or free text taken as
the URL) — issues exactly one catalog insert, carrying precisely the
four accumulated values, and leaves no residual session for that
user. -/
theorem c1_add_flow_single_insert_no_residual_session (c : Collab) (uid chat : Int)
    (states : Sessions) (t cat l : String) (img : Message) (url : String)
    (hadm : isAdmin uid = true)
    (ht : t ∉ buttonLabels)
    (hcat : cat = "Choir" ∨ cat = "Non-Choir")
    (hl : l ∉ buttonLabels)
    (hifrom : img.fromID = uid) (hicmd : img.isCommand = false)
    (hibtn : img.text ∉ buttonLabels)
    (hres : resolveImage c img = some url) :
    (runMessages c [textMsg uid chat "➕ Add Song", textMsg uid chat t, textMsg uid chat cat,
        textMsg uid chat l, img] states).1 uid = none ∧
    (runMessages c [textMsg uid chat "➕ Add Song", textMsg uid chat t, textMsg uid chat cat,
        textMsg uid chat l, img] states).2.filter isInsert =
      [Effect.insertOne t l url cat] := by
  have hcatbtn : cat ∉ buttonLabels := by
    rcases hcat with h | h <;> rw [h] <;> decide
  have e1 : handleUpdate c (textMsg uid chat "➕ Add Song") states =
      (sessionUpdate states uid (some (UserState.mk "awaiting_title" "" "" "" false "")),
       [Effect.sendMessage chat "Please enter the song title:\n(or type /cancel to abort)"]) := by
    rw [handleUpdate_addSong_button c (textMsg uid chat "➕ Add Song") states rfl rfl]
    simp [textMsg, hadm]
  have e2 : handleUpdate c (textMsg uid chat t)
        (sessionUpdate states uid (some (UserState.mk "awaiting_title" "" "" "" false ""))) =
      (sessionUpdate
         (sessionUpdate states uid (some (UserState.mk "awaiting_title" "" "" "" false "")))
         uid (some (UserState.mk "awaiting_category" t "" "" false "")),
       [Effect.sendMessage chat "Please select the song category:"]) :=
    step_awaiting_title c (textMsg uid chat t)
      (sessionUpdate states uid (some (UserState.mk "awaiting_title" "" "" "" false "")))
      (UserState.mk "awaiting_title" "" "" "" false "")
      rfl ht hadm (by simp [sessionUpdate, textMsg]) rfl
  have e3 : handleUpdate c (textMsg uid chat cat)
        (sessionUpdate
          (sessionUpdate states uid (some (UserState.mk "awaiting_title" "" "" "" false "")))
          uid (some (UserState.mk "awaiting_category" t "" "" false ""))) =
      (sessionUpdate
         (sessionUpdate
           (sessionUpdate states uid (some (UserState.mk "awaiting_title" "" "" "" false "")))
           uid (some (UserState.mk "awaiting_category" t "" "" false "")))
         uid (some (UserState.mk "awaiting_lyrics" t "" cat false "")),
       [Effect.sendMessage chat "Great! Now please enter the lyrics:"]) :=
    step_awaiting_category_valid c (textMsg uid chat cat)
      (sessionUpdate
        (sessionUpdate states uid (some (UserState.mk "awaiting_title" "" "" "" false "")))
        uid (some (UserState.mk "awaiting_category" t "" "" false "")))
      (UserState.mk "awaiting_category" t "" "" false "")
      rfl hcatbtn hadm (by simp [sessionUpdate, textMsg]) rfl hcat
  have e4 : handleUpdate c (textMsg uid chat l)
        (sessionUpdate
          (sessionUpdate
            (sessionUpdate states uid (some (UserState.mk "awaiting_title" "" "" "" false "")))
            uid (some (UserState.mk "awaiting_category" t "" "" false "")))
          uid (some (UserState.mk "awaiting_lyrics" t "" cat false ""))) =
      (sessionUpdate
         (sessionUpdate
           (sessionUpdate
             (sessionUpdate states uid (some (UserState.mk "awaiting_title" "" "" "" false "")))
             uid (some (UserState.mk "awaiting_category" t "" "" false "")))
           uid (some (UserState.mk "awaiting_lyrics" t "" cat false "")))
         uid (some (UserState.mk "awaiting_image" t l cat false "")),
       [Effect.sendMessage chat "Perfect! Now please send the image URL or upload an image:"]) :=
    step_awaiting_lyrics c (textMsg uid chat l)
      (sessionUpdate
        (sessionUpdate
          (sessionUpdate states uid (some (UserState.mk "awaiting_title" "" "" "" false "")))
          uid (some (UserState.mk "awaiting_category" t "" "" false "")))
        uid (some (UserState.mk "awaiting_lyrics" t "" cat false "")))
      (UserState.mk "awaiting_lyrics" t "" cat false "")
      rfl hl hadm (by simp [sessionUpdate, textMsg]) rfl
  have e5 : handleUpdate c img
        (sessionUpdate
          (sessionUpdate
            (sessionUpdate
              (sessionUpdate states uid (some (UserState.mk "awaiting_title" "" "" "" false "")))
              uid (some (UserState.mk "awaiting_category" t "" "" false "")))
            uid (some (UserState.mk "awaiting_lyrics" t "" cat false "")))
          uid (some (UserState.mk "awaiting_image" t l cat false ""))) =
      (sessionUpdate
         (sessionUpdate
           (sessionUpdate
             (sessionUpdate
               (sessionUpdate states uid (some (UserState.mk "awaiting_title" "" "" "" false "")))
               uid (some (UserState.mk "awaiting_category" t "" "" false "")))
             uid (some (UserState.mk "awaiting_lyrics" t "" cat false "")))
           uid (some (UserState.mk "awaiting_image" t l cat false "")))
         img.fromID none,
       [Effect.insertOne t l url cat,
        Effect.sendMessage img.chatID
          (if c.insertOk then "Song added successfully!" else "Failed to add song.")]) :=
    step_awaiting_image_resolved c img
      (sessionUpdate
        (sessionUpdate
          (sessionUpdate
            (sessionUpdate states uid (some (UserState.mk "awaiting_title" "" "" "" false "")))
            uid (some (UserState.mk "awaiting_category" t "" "" false "")))
          uid (some (UserState.mk "awaiting_lyrics" t "" cat false "")))
        uid (some (UserState.mk "awaiting_image" t l cat false "")))
      (UserState.mk "awaiting_image" t l cat false "") url
      hicmd hibtn (by rw [hifrom]; exact hadm) (by rw [hifrom]; simp [sessionUpdate]) rfl hres
  simp only [runMessages]
  rw [e1]
  dsimp only
  rw [e2]
  dsimp only
  rw [e3]
  dsimp only
  rw [e4]
  dsimp only
  rw [e5]
  dsimp only
  constructor
  · simp [sessionUpdate, hifrom]
  · rfl

/-- Witness for C1 at a concrete input: the image is supplied as free
text taken as the URL. -/
theorem c1_add_flow_single_insert_no_residual_session_witness :
    (runMessages collabOK
        [textMsg 547900737 1 "➕ Add Song", textMsg 547900737 1 "Night Song",
         textMsg 547900737 1 "Choir", textMsg 547900737 1 "La la la",
         textMsg 547900737 1 "https://example.com/a.jpg"] (fun _ => none)).1 547900737 = none ∧
    (runMessages collabOK
        [textMsg 547900737 1 "➕ Add Song", textMsg 547900737 1 "Night Song",
         textMsg 547900737 1 "Choir", textMsg 547900737 1 "La la la",
         textMsg 547900737 1 "https://example.com/a.jpg"] (fun _ => none)).2.filter isInsert =
      [Effect.insertOne "Night Song" "La la la" "https://example.com/a.jpg" "Choir"] :=
  c1_add_flow_single_insert_no_residual_session collabOK 547900737 1 (fun _ => none)
    "Night Song" "Choir" "La la la" (textMsg 547900737 1 "https://example.com/a.jpg")
    "https://example.com/a.jpg"
    (by decide) (by decide) (Or.inl rfl) (by decide) rfl rfl (by decide) rfl

/-- Witness for the amended C2 at a concrete input: the effects of the
`➕ Add Song` button do not depend on the stored session. -/
theorem c2_dispatch_order_witness :
    (handleUpdate collabOK (textMsg 547900737 5 "➕ Add Song") (fun _ => none)).2 =
      (handleUpdate collabOK (textMsg 547900737 5 "➕ Add Song")
        (sessionUpdate (fun _ => none) 547900737
          (some (UserState.mk "awaiting_title" "" "" "" false "")))).2 :=
  (c2_dispatch_order collabOK (textMsg 547900737 5 "➕ Add Song") (fun _ => none)
      (some (UserState.mk "awaiting_title" "" "" "" false ""))).2.1 rfl (by decide)
